import Mathlib

/-!
Verification of the maplab `openvinsli` localization handler
(`src/applications/openvinsli/src/openvins-localization-handler.cc`).

The development shallowly embeds the localization fusion core: geometric
types (vectors, quaternions, rigid transformations), the pose-lookup
buffer, the baseframe-alignment RANSAC, the reprojection consistency
gate and the fusion state machine, and proves the spec claims about
them.  `double` arithmetic is modelled with exact real numbers.
External collaborators (the openvins estimator, camera projection
models, the maplab-to-openvins time translation) appear as abstract
data: a camera is its projection function, estimator calls are recorded
as events.
-/

noncomputable section

open Classical

namespace Openvinsli

/-! ## Geometric primitives

`Eigen::Vector2d` / `Eigen::Vector3d` as records of reals. -/

/-- A 2D vector (pixel coordinates). -/
@[ext] structure Vec2 where
  x : ℝ
  y : ℝ

namespace Vec2

def sub (a b : Vec2) : Vec2 := ⟨a.x - b.x, a.y - b.y⟩

/-- Squared Euclidean norm. -/
def normSq (v : Vec2) : ℝ := v.x * v.x + v.y * v.y

/-- Euclidean norm, as in `Eigen`'s `.norm()`. -/
def norm (v : Vec2) : ℝ := Real.sqrt v.normSq

end Vec2

/-- A 3D vector. -/
@[ext] structure Vec3 where
  x : ℝ
  y : ℝ
  z : ℝ

namespace Vec3

def add (a b : Vec3) : Vec3 := ⟨a.x + b.x, a.y + b.y, a.z + b.z⟩

def neg (a : Vec3) : Vec3 := ⟨-a.x, -a.y, -a.z⟩

def smul (c : ℝ) (a : Vec3) : Vec3 := ⟨c * a.x, c * a.y, c * a.z⟩

def dot (a b : Vec3) : ℝ := a.x * b.x + a.y * b.y + a.z * b.z

def cross (a b : Vec3) : Vec3 :=
  ⟨a.y * b.z - a.z * b.y, a.z * b.x - a.x * b.z, a.x * b.y - a.y * b.x⟩

def normSq (v : Vec3) : ℝ := v.dot v

/-- Euclidean norm. -/
def norm (v : Vec3) : ℝ := Real.sqrt v.normSq

/-- `Eigen::Vector3d::UnitZ()`. -/
def unitZ : Vec3 := ⟨0, 0, 1⟩

def zero : Vec3 := ⟨0, 0, 0⟩

end Vec3

/-- A rotation represented by a quaternion (Hamilton convention, `w`
scalar part), as in kindr's `RotationQuaternion` underlying
`aslam::Transformation`.  The handler only ever manipulates unit
quaternions. -/
@[ext] structure Quat where
  w : ℝ
  x : ℝ
  y : ℝ
  z : ℝ

namespace Quat

/-- Quaternion (Hamilton) product. -/
def mul (a b : Quat) : Quat :=
  ⟨a.w * b.w - a.x * b.x - a.y * b.y - a.z * b.z,
   a.w * b.x + a.x * b.w + a.y * b.z - a.z * b.y,
   a.w * b.y - a.x * b.z + a.y * b.w + a.z * b.x,
   a.w * b.z + a.x * b.y - a.y * b.x + a.z * b.w⟩

/-- Conjugate; the inverse for the unit quaternions the handler uses. -/
def inv (q : Quat) : Quat := ⟨q.w, -q.x, -q.y, -q.z⟩

/-- Rotate a vector by a (unit) quaternion:
`v' = (w² − u·u) v + 2 (u·v) u + 2 w (u × v)` with `u` the vector part. -/
def rotate (q : Quat) (v : Vec3) : Vec3 :=
  let u : Vec3 := ⟨q.x, q.y, q.z⟩
  (Vec3.smul (q.w * q.w - u.dot u) v).add
    ((Vec3.smul (2 * u.dot v) u).add (Vec3.smul (2 * q.w) (u.cross v)))

/-- The identity rotation. -/
def id : Quat := ⟨1, 0, 0, 0⟩

/-- Rotation angle of a unit quaternion, in radians: `2·arccos |w|`. -/
def angle (q : Quat) : ℝ := 2 * Real.arccos |q.w|

end Quat

/-- A rigid transformation (`aslam::Transformation` /
`pose::Transformation`): rotation quaternion plus translation. -/
@[ext] structure Transformation where
  q : Quat
  t : Vec3

namespace Transformation

/-- Apply the transformation to a point. -/
def act (T : Transformation) (v : Vec3) : Vec3 := (T.q.rotate v).add T.t

/-- Composition `A * B` of transformations. -/
def comp (A B : Transformation) : Transformation :=
  ⟨A.q.mul B.q, (A.q.rotate B.t).add A.t⟩

/-- Inverse of a rigid transformation (with a unit rotation
quaternion). -/
def inverse (T : Transformation) : Transformation :=
  ⟨T.q.inv, (T.q.inv.rotate T.t).neg⟩

/-- The identity transformation. -/
def identity : Transformation := ⟨Quat.id, Vec3.zero⟩

instance : Inhabited Transformation := ⟨identity⟩

end Transformation

/-! Simp lemmas for the identity rotation/transformation, used to
evaluate the concrete instances appearing in witnesses. -/

@[simp] theorem Quat.id_mul (q : Quat) : Quat.id.mul q = q := by
  ext <;> simp [Quat.mul, Quat.id]

@[simp] theorem Quat.mul_id (q : Quat) : q.mul Quat.id = q := by
  ext <;> simp [Quat.mul, Quat.id]

@[simp] theorem Quat.id_inv : Quat.id.inv = Quat.id := by
  ext <;> simp [Quat.inv, Quat.id]

@[simp] theorem Quat.id_rotate (v : Vec3) : Quat.id.rotate v = v := by
  ext <;> simp [Quat.rotate, Quat.id, Vec3.dot, Vec3.cross, Vec3.smul, Vec3.add]

@[simp] theorem Vec3.add_zero' (v : Vec3) : v.add Vec3.zero = v := by
  ext <;> simp [Vec3.add, Vec3.zero]

@[simp] theorem Vec3.zero_add' (v : Vec3) : Vec3.zero.add v = v := by
  ext <;> simp [Vec3.add, Vec3.zero]

@[simp] theorem Vec3.neg_zero' : Vec3.zero.neg = Vec3.zero := by
  ext <;> simp [Vec3.neg, Vec3.zero]

@[simp] theorem Transformation.identity_comp (T : Transformation) :
    Transformation.identity.comp T = T := by
  ext <;> simp [Transformation.comp, Transformation.identity]

@[simp] theorem Transformation.comp_identity (T : Transformation) :
    T.comp Transformation.identity = T := by
  ext <;> simp [Transformation.comp, Transformation.identity, Quat.rotate,
    Vec3.dot, Vec3.cross, Vec3.smul, Vec3.add, Vec3.zero]

@[simp] theorem Transformation.identity_inverse :
    Transformation.identity.inverse = Transformation.identity := by
  ext <;> simp [Transformation.inverse, Transformation.identity]

@[simp] theorem Transformation.identity_act (v : Vec3) :
    Transformation.identity.act v = v := by
  ext <;> simp [Transformation.act, Transformation.identity]

/-! ## Cameras and localization results -/

/-- Detailed status of `aslam::ProjectionResult`.  (`UNINITIALIZED` is
excluded: the handler `CHECK`s against it immediately, so it never
flows past the call site.) -/
inductive ProjectionStatus where
  | keypointVisible
  | keypointOutsideImageBox
  | pointBehindCamera
  | projectionInvalid
deriving DecidableEq

/-- An `aslam::Camera` abstracted to its projection capability
(`project3`): a 3D point in camera frame maps to a detailed status and
a 2D pixel. -/
structure Camera where
  project3 : Vec3 → ProjectionStatus × Vec2

/-- One camera of the handler's `aslam::NCamera` calibration, together
with the entry of the maplab-to-openvins camera-index bidirectional map
for it: `openvinsCamIdx = none` means the camera is inactive in
openvins (`getRight` returned `nullptr`). -/
structure CameraEntry where
  camera : Camera
  T_C_B : Transformation
  openvinsCamIdx : Option ℕ

/-- A `vio::LocalizationResult` as used by the handler: timestamp, the
global pose `T_G_B`, and per camera the list of (2D keypoint, 3D global
landmark) correspondences.  The source keeps keypoints and landmarks in
two per-camera arrays whose sizes are `CHECK`ed equal; the zipped list
form bakes that checked invariant in. -/
structure LocalizationResult where
  timestamp_ns : ℤ
  T_G_B : Transformation
  matchesPerCamera : List (List (Vec2 × Vec3))

/-! ## Reprojection errors (`getReprojectionErrorForGlobalLandmark`,
`getLocalizationReprojectionErrors`) -/

/-- `getReprojectionErrorForGlobalLandmark`: transform the global
landmark into the camera frame, project it, and return `none` (the
source returns `false`) when the projection is geometrically invalid
(point behind the camera or outside the projection domain), otherwise
the pixel distance between the reprojection and the measurement. -/
def getReprojectionErrorForGlobalLandmark (p_G : Vec3) (T_G_C : Transformation)
    (camera : Camera) (measurement : Vec2) : Option ℝ :=
  if (camera.project3 (T_G_C.inverse.act p_G)).1 =
        ProjectionStatus.pointBehindCamera ∨
     (camera.project3 (T_G_C.inverse.act p_G)).1 =
        ProjectionStatus.projectionInvalid then none
  else some (((camera.project3 (T_G_C.inverse.act p_G)).2.sub measurement).norm)

/-- Accumulator of the loops in `getLocalizationReprojectionErrors`:
the two residual vectors and `num_matches_processed`.  Mirroring the
source, `lcErrs` receives the residuals computed under the *filter*
hypothesis and `filterErrs` those under the *localization* hypothesis
(the source pushes `reproj_error_sq_filter` into
`lc_reprojection_errors` and vice versa). -/
structure ReprojAccum where
  lcErrs : List ℝ
  filterErrs : List ℝ
  processed : ℕ

/-- Body of the inner match loop: try the filter-hypothesis projection
first, and only if it succeeds the localization-hypothesis one (the
source short-circuits with `if (projection_successful)`); always count
the match in `num_matches_processed`, and record the residual pair only
when both projections succeed. -/
def processMatch (camera : Camera) (T_G_C_filter T_G_C_lc : Transformation)
    (acc : ReprojAccum) (m : Vec2 × Vec3) : ReprojAccum :=
  match getReprojectionErrorForGlobalLandmark m.2 T_G_C_filter camera m.1 with
  | none => { acc with processed := acc.processed + 1 }
  | some ef =>
    match getReprojectionErrorForGlobalLandmark m.2 T_G_C_lc camera m.1 with
    | none => { acc with processed := acc.processed + 1 }
    | some el =>
      { lcErrs := acc.lcErrs ++ [ef], filterErrs := acc.filterErrs ++ [el],
        processed := acc.processed + 1 }

/-- Body of the per-camera loop: skip cameras without matches and
cameras inactive in openvins, otherwise build the two camera-pose
hypotheses and process every match. -/
def processCamera (T_G_B T_G_I_filter : Transformation) (acc : ReprojAccum)
    (p : CameraEntry × List (Vec2 × Vec3)) : ReprojAccum :=
  if p.2.length = 0 then acc
  else
    match p.1.openvinsCamIdx with
    | none => acc
    | some _ =>
      let T_G_C_filter := (p.1.T_C_B.comp T_G_I_filter.inverse).inverse
      let T_G_C_lc := (p.1.T_C_B.comp T_G_B.inverse).inverse
      p.2.foldl (processMatch p.1.camera T_G_C_filter T_G_C_lc) acc

/-- `getLocalizationReprojectionErrors`: fold over the calibrated
cameras paired with the per-camera matches.  The source `CHECK`s that
the per-camera arrays and the calibration have the same size; theorems
that need it assume equal lengths. -/
def getLocalizationReprojectionErrors (cameras : List CameraEntry)
    (lr : LocalizationResult) (T_G_I_filter : Transformation) : ReprojAccum :=
  (cameras.zip lr.matchesPerCamera).foldl
    (processCamera lr.T_G_B T_G_I_filter) ⟨[], [], 0⟩

/-- The returned success rate: accepted correspondences over processed
correspondences (real division; the source `CHECK`s `processed > 0` at
its call sites). -/
def reprojectionSuccessRate (acc : ReprojAccum) : ℝ :=
  (acc.lcErrs.length : ℝ) / (acc.processed : ℝ)

/-! ## The consistency gate of `processAsUpdate` (structure-constraint
mode) -/

/-- `aslam::common::mean` of a list of reals. -/
def mean (l : List ℝ) : ℝ := l.sum / (l.length : ℝ)

/-- `std::numeric_limits<double>::max()`, the initial value of
`mean_reprojection_error_diff`. -/
def dblMax : ℝ := 2 ^ 1024 - 2 ^ 971

/-- `reprojection_success` in `processAsUpdate`: the success rate must
exceed `kMinReprojectionSuccessRate = 0.5` and the number of accepted
constraints must exceed
`FLAGS_openvinsli_min_number_of_structure_constraints`. -/
def reprojectionSuccess (minConstraints : ℕ) (acc : ReprojAccum) : Prop :=
  reprojectionSuccessRate acc > 1 / 2 ∧ acc.lcErrs.length > minConstraints

/-- `mean_reprojection_error_diff`: `|mean(filter) − mean(lc)|` when
the success bar is met, otherwise its initial `DBL_MAX` value. -/
def meanReprojectionErrorDiff (minConstraints : ℕ) (acc : ReprojAccum) : ℝ :=
  if reprojectionSuccess minConstraints acc then
    |mean acc.filterErrs - mean acc.lcErrs|
  else dblMax

/-- The consistency-gate decision of `processAsUpdate`: the source
treats the localization as bad (`"Will reset the localization"`) iff
`!reprojection_success || mean_reprojection_error_diff >
FLAGS_openvinsli_max_mean_localization_reprojection_error_px`; the gate
accepts iff that rejection condition is false. -/
def consistencyGateAccepts (minConstraints : ℕ) (maxErrPx : ℝ)
    (acc : ReprojAccum) : Prop :=
  ¬(¬reprojectionSuccess minConstraints acc ∨
    meanReprojectionErrorDiff minConstraints acc > maxErrPx)

/-- Restatement of the gate in the spec's words, used only to compare
against the source-derived `consistencyGateAccepts`: success rate
strictly above 0.5, strictly more valid correspondences than the
configured minimum, and a mean residual difference strictly *below* the
pixel-error threshold. -/
def consistencyGateAcceptsSpec (minConstraints : ℕ) (maxErrPx : ℝ)
    (acc : ReprojAccum) : Prop :=
  reprojectionSuccessRate acc > 1 / 2 ∧
  acc.lcErrs.length > minConstraints ∧
  |mean acc.filterErrs - mean acc.lcErrs| < maxErrPx

/-! ## Gravity disparity (`getLocalizationResultGravityDisparityAngleDeg`) -/

/-- `kRadToDeg` from `maplab-common/conversions.h`. -/
def kRadToDeg : ℝ := 180 / Real.pi

/-- `getLocalizationResultGravityDisparityAngleDeg`: angle in degrees
between the gravity directions of the odometry pose and of the
localization result, with the cosine clamped before `acos`. -/
def getLocalizationResultGravityDisparityAngleDeg (lr : LocalizationResult)
    (T_G_I_vio : Transformation) : ℝ :=
  let gravityDirectionVio := T_G_I_vio.q.inv.rotate Vec3.unitZ
  let gravityDirectionLocalizationPnp := lr.T_G_B.q.inv.rotate Vec3.unitZ
  let errorCosine := gravityDirectionVio.dot gravityDirectionLocalizationPnp
  if errorCosine ≤ -1 then 180
  else if errorCosine ≥ 1 then 0
  else Real.arccos errorCosine * kRadToDeg

/-! ## `extractLocalizationFromOpenvinsState` -/

/-- Modelled from the spec: `common::ensurePositiveQuaternion`
(maplab-common, not under `src/`): flip the sign of the whole
quaternion when the scalar part is negative, so the result has a
non-negative scalar part while representing the same rotation. -/
def ensurePositiveQuaternion (q : Quat) : Quat :=
  if q.w < 0 then ⟨-q.w, -q.x, -q.y, -q.z⟩ else q

/-- The `status` part of `ov_msckf::VioManager::Output` used by
`extractLocalizationFromOpenvinsState`; `T_MtoG` (a 4×4 matrix in the
source, its rotation block converted to a quaternion by Eigen) is
modelled directly as a rigid transformation. -/
structure OvOutputStatus where
  localized : Bool
  T_MtoG : Transformation

/-- `ov_msckf::VioManager::Output`, restricted to the consumed part. -/
structure OvOutput where
  status : OvOutputStatus

/-- `extractLocalizationFromOpenvinsState`: returns
`output.status.localized`; overwrites `*T_G_M` (with the positive-
scalar quaternion) only when that flag is set.  The Lean model returns
the flag and the (possibly updated) out-parameter. -/
def extractLocalizationFromOpenvinsState (output : OvOutput)
    (T_G_M : Transformation) : Bool × Transformation :=
  (output.status.localized,
   if output.status.localized then
     ⟨ensurePositiveQuaternion output.status.T_MtoG.q, output.status.T_MtoG.t⟩
   else T_G_M)

/-! ## Pose lookup buffer

Modelled from the spec: `vio_common::PoseLookupBuffer` (vio-common, not
under `src/`).  §4.1: `Ready` with an interpolated pose when the
timestamp falls in the buffered span, `NotYetAvailable` when it is
newer than the newest sample, `NeverAvailable` when it is older than
the oldest retained sample or the bracketing gap exceeds the
propagation cap.  Samples are kept in ascending timestamp order.
Rotation interpolation (spherical in the spec) is abstracted to the
nearest bracketing sample; no claim depends on interpolated rotation
values. -/

/-- The three-way result of `PoseLookupBuffer::getPoseAt`
(`kSuccess...` / `kFailedNotYetAvailable` / `kFailedWillNeverSucceed`). -/
inductive PoseQueryResult where
  | ready (pose : Transformation)
  | notYetAvailable
  | neverAvailable

/-- One buffered local pose sample. -/
structure PoseSample where
  ts : ℤ
  pose : Transformation

/-- The buffered pose history (ascending timestamps) plus the maximum
interpolation span (`kBufferMaxPropagationNs`). -/
structure PoseLookupBuffer where
  maxPropagationNs : ℤ
  samples : List PoseSample

/-- Linear interpolation of the translation at integer timestamp `ts`
between two bracketing samples, with the rotation of the nearer
sample. -/
def interpolatePose (a b : PoseSample) (ts : ℤ) : Transformation :=
  let frac : ℝ := ((ts - a.ts : ℤ) : ℝ) / ((b.ts - a.ts : ℤ) : ℝ)
  let trans := a.pose.t.add (Vec3.smul frac (b.pose.t.add a.pose.t.neg))
  ⟨if 2 * (ts - a.ts) ≤ b.ts - a.ts then a.pose.q else b.pose.q, trans⟩

/-- Search the ascending sample list for an exact hit or a bracketing
pair for timestamp `ts` (which is already known to lie inside the
buffered span). -/
def lookupInSamples (maxProp : ℤ) (ts : ℤ) : List PoseSample → PoseQueryResult
  | [] => .neverAvailable
  | [a] => if a.ts = ts then .ready a.pose else .neverAvailable
  | a :: b :: rest =>
    if a.ts = ts then .ready a.pose
    else if a.ts < ts ∧ ts < b.ts then
      if b.ts - a.ts > maxProp then .neverAvailable
      else .ready (interpolatePose a b ts)
    else lookupInSamples maxProp ts (b :: rest)

/-- `PoseLookupBuffer::getPoseAt`. -/
def getPoseAt (buf : PoseLookupBuffer) (ts : ℤ) : PoseQueryResult :=
  match buf.samples.getLast? with
  | none => .neverAvailable
  | some newest =>
    if newest.ts < ts then .notYetAvailable
    else
      match buf.samples.head? with
      | none => .neverAvailable
      | some oldest =>
        if ts < oldest.ts then .neverAvailable
        else lookupInSamples buf.maxPropagationNs ts buf.samples

/-! ## Baseframe alignment RANSAC

Modelled from the spec: `common::transformationRansac` (maplab-common,
not under `src/`), per §4.2, adapted to the source call site where each
candidate is already a collapsed `T_G_M` estimate: repeatedly draw one
candidate as the hypothesis, count as inliers the candidates whose
residual against the hypothesis has rotation angle and translation norm
below the two thresholds, and keep the hypothesis with the most
inliers.  The draw is driven by an explicit linear-congruential
generator seeded by the caller, making the whole procedure a pure
function of (candidates, budget, thresholds, seed). -/

/-- One step of the pseudo-random generator threading the seed. -/
def lcgNext (s : ℕ) : ℕ := (s * 1103515245 + 12345) % 2147483648

/-- Whether candidate `T` agrees with hypothesis `hyp`: the residual
`hyp⁻¹ * T` has rotation angle below the orientation threshold
(radians) and translation norm below the position threshold (meters). -/
def isRansacInlier (hyp T : Transformation) (orientThr posThr : ℝ) : Prop :=
  let residual := hyp.inverse.comp T
  residual.q.angle < orientThr ∧ residual.t.norm < posThr

/-- Number of inliers of a hypothesis among the candidates. -/
def countInliers (hyp : Transformation) (orientThr posThr : ℝ) :
    List Transformation → ℕ
  | [] => 0
  | T :: rest =>
    (if isRansacInlier hyp T orientThr posThr then 1 else 0) +
      countInliers hyp orientThr posThr rest

/-- The sampling loop: `fuel` remaining iterations, current generator
state, current best (hypothesis, inlier count). -/
def ransacLoop (candidates : List Transformation) (orientThr posThr : ℝ) :
    ℕ → ℕ → Transformation × ℕ → Transformation × ℕ
  | 0, _, best => best
  | fuel + 1, s, best =>
    let s' := lcgNext s
    let hyp := candidates.getD (s' % candidates.length) default
    let score := countInliers hyp orientThr posThr candidates
    ransacLoop candidates orientThr posThr fuel s'
      (if best.2 < score then (hyp, score) else best)

/-- `common::transformationRansac`: returns the best transform and its
inlier count after the full iteration budget. -/
def transformationRansac (candidates : List Transformation)
    (maxIterations : ℕ) (orientThr posThr : ℝ) (seed : ℕ) :
    Transformation × ℕ :=
  ransacLoop candidates orientThr posThr maxIterations seed
    (Transformation.identity, 0)

/-! ## Handler configuration and state -/

/-- `common::LocalizationState` (maplab-common). -/
inductive LocalizationState where
  | kUninitialized
  | kNotLocalized
  | kLocalized
deriving DecidableEq

/-- Configuration of the handler: the gflags of
`openvins-localization-handler.cc`, the constants of its header, the
camera calibration with the openvins index mapping, and the (external)
maplab-to-openvins time translation. -/
structure Config where
  use6dofLocalization : Bool
  use6dofLocalizationForInactiveCameras : Bool
  minNumBaseframeEstimatesBeforeInit : ℕ
  minNumberOfStructureConstraints : ℕ
  maxMeanLocalizationReprojectionErrorPx : ℝ
  maxNumRansacIterations : ℕ
  ransacOrientationErrorThresholdRad : ℝ
  ransacPositionErrorThresholdMeters : ℝ
  ransacInlierRatioThreshold : ℝ
  bufferMaxPropagationNs : ℤ
  cameras : List CameraEntry
  timeTranslate : ℤ → ℝ

/-- Default of `FLAGS_openvinsli_use_6dof_localization`. -/
def defaultUse6dofLocalization : Bool := true

/-- Default of `FLAGS_openvinsli_min_num_baseframe_estimates_before_init`. -/
def defaultMinNumBaseframeEstimatesBeforeInit : ℕ := 2

/-- Default of `FLAGS_openvinsli_min_number_of_structure_constraints`. -/
def defaultMinNumberOfStructureConstraints : ℕ := 5

/-- Default of `FLAGS_openvinsli_max_mean_localization_reprojection_error_px`. -/
def defaultMaxMeanLocalizationReprojectionErrorPx : ℝ := 100

/-- The mutable state of `OpenvinsLocalizationHandler`:
`localization_state_`, the pose history `T_M_I_buffer_`, the filter
baseframe buffer `T_G_M_filter_buffer_`, the candidate alignment buffer
`T_G_M_loc_buffer_` (a `common::FixedSizeQueue` with capacity
`FLAGS_openvinsli_min_num_baseframe_estimates_before_init`), and the
pending-localization FIFO `localization_buffer_`. -/
structure HandlerState where
  localizationState : LocalizationState
  T_M_I_buffer : PoseLookupBuffer
  T_G_M_filter_buffer : List Transformation
  T_G_M_loc_buffer : List Transformation
  localization_buffer : List LocalizationResult

/-- Modelled from the spec: `common::FixedSizeQueue::insert`
(maplab-common, not under `src/`): append the new element and evict the
oldest entries beyond the capacity (§3: an ordered, size-bounded
collection). -/
def fixedSizeQueueInsert (cap : ℕ) (q : List Transformation)
    (x : Transformation) : List Transformation :=
  if cap < (q ++ [x]).length then (q ++ [x]).drop ((q ++ [x]).length - cap)
  else q ++ [x]

/-- `ov_core::LocalizationData` as filled by
`makeOpenvinsLocalizationData`; the 6×6 covariance (identity with the
two diagonal blocks overwritten) is modelled by its two variances. -/
structure OvLocalizationData where
  timestamp : ℝ
  pm : Vec3
  qm : Quat
  orientationVariance : ℝ
  positionVariance : ℝ

/-- Calls the handler makes on its collaborators, plus its log lines
that carry diagnostics; used to state non-invocation and diagnostic
claims. -/
inductive Event where
  | feedLocalization (d : OvLocalizationData)
  | warnCouldNotGetTMI
  | ransacInvoked
  | ransacDiagnostics (numInliers : ℕ) (bufferSize : ℕ)
  | gateInvoked
  | willResetLocalization

/-- The recorded fate of one observation, in the spec's vocabulary:
forwarded to the estimator (`fused`), rejected by the consistency gate,
rejected for a timing failure, or absorbed into a buffer
(candidate-alignment accumulation). -/
inductive Disposition where
  | fused
  | rejectedConsistency
  | rejectedTiming
  | buffered
deriving DecidableEq

/-- `makeOpenvinsLocalizationData`: translate the timestamp, copy the
pose, and fill the hard-coded measurement uncertainties (0.04 rad
orientation, 0.8 m position). -/
def makeOpenvinsLocalizationData (cfg : Config) (lr : LocalizationResult) :
    OvLocalizationData :=
  { timestamp := cfg.timeTranslate lr.timestamp_ns
    pm := lr.T_G_B.t
    qm := lr.T_G_B.q
    orientationVariance := 0.04 * 0.04
    positionVariance := 0.8 * 0.8 }

/-! ## `initializeBaseframe` -/

/-- Result of `initializeBaseframe`: the returned success flag, the
updated handler state, the emitted events, and the disposition recorded
for the observation. -/
structure InitBaseframeResult where
  success : Bool
  state : HandlerState
  events : List Event
  dispositions : List Disposition

/-- `OpenvinsLocalizationHandler::initializeBaseframe`.  On a failed
pose lookup — `kFailedNotYetAvailable` falls through to
`kFailedWillNeverSucceed` in the source — it warns and returns failure
without touching any buffer.  Otherwise it inserts the collapsed
`T_G_M` estimate into the fixed-size candidate buffer, returns failure
while the buffer is not yet full, and otherwise runs the RANSAC and
compares the inlier count against
`ceil(FLAGS_openvinsli_min_num_baseframe_estimates_before_init *
kInitializationRansacInlierRatioThreshold)`.  `seed` models the fresh
`std::random_device` draw the source makes per call. -/
def initializeBaseframe (cfg : Config) (s : HandlerState)
    (lr : LocalizationResult) (seed : ℕ) : InitBaseframeResult :=
  match getPoseAt s.T_M_I_buffer lr.timestamp_ns with
  | .notYetAvailable => ⟨false, s, [.warnCouldNotGetTMI], [.rejectedTiming]⟩
  | .neverAvailable => ⟨false, s, [.warnCouldNotGetTMI], [.rejectedTiming]⟩
  | .ready T_M_I =>
    let T_G_M_lc_estimate := lr.T_G_B.comp T_M_I.inverse
    let buf' := fixedSizeQueueInsert cfg.minNumBaseframeEstimatesBeforeInit
      s.T_G_M_loc_buffer T_G_M_lc_estimate
    let s' := { s with T_G_M_loc_buffer := buf' }
    if buf'.length < cfg.minNumBaseframeEstimatesBeforeInit then
      ⟨false, s', [], [.buffered]⟩
    else
      let kNumInliersThreshold : ℤ :=
        ⌈(cfg.minNumBaseframeEstimatesBeforeInit : ℝ) *
          cfg.ransacInlierRatioThreshold⌉
      let r := transformationRansac buf' cfg.maxNumRansacIterations
        cfg.ransacOrientationErrorThresholdRad
        cfg.ransacPositionErrorThresholdMeters seed
      if (r.2 : ℤ) < kNumInliersThreshold then
        ⟨false, s', [.ransacInvoked, .ransacDiagnostics r.2 buf'.length],
          [.buffered]⟩
      else
        ⟨true, s', [.ransacInvoked], [.buffered]⟩

/-! ## `processAsUpdate` -/

/-- `num_valid_matches`: total number of correspondences over the
cameras active in openvins. -/
def numValidMatches (cameras : List CameraEntry)
    (matchesPerCamera : List (List (Vec2 × Vec3))) : ℕ :=
  (cameras.zip matchesPerCamera).foldl
    (fun n p => match p.1.openvinsCamIdx with
      | none => n
      | some _ => n + p.2.length) 0

/-- The final `measurement_accepted` folding of the structure-
constraints branch: for every camera active in openvins the source
performs `measurement_accepted &= false` (the landmark update is not
implemented for openvins), so the flag survives only if no camera is
active. -/
def structureConstraintsAccepted (cameras : List CameraEntry) : Bool :=
  cameras.foldl
    (fun acc c => match c.openvinsCamIdx with
      | none => acc
      | some _ => acc && false) true

/-- `OpenvinsLocalizationHandler::processAsUpdate`: `none` models a
`CHECK` failure (pose lookup not ready, or an empty filter-baseframe
buffer).  In 6-DoF mode the localization is fed to openvins and always
accepted.  In structure-constraints mode: with no valid matches for
active cameras the result is rejected (the inactive-camera 6-DoF
fallback is not implemented and yields `measurement_accepted = false`);
otherwise the reprojection consistency gate is evaluated (its rejection
only logs `"Will reset the localization"`) and the unimplemented
landmark update leaves the measurement rejected for any active
camera. -/
def processAsUpdate (cfg : Config) (s : HandlerState)
    (lr : LocalizationResult) : Option (Bool × List Event) :=
  match getPoseAt s.T_M_I_buffer lr.timestamp_ns with
  | .notYetAvailable => none
  | .neverAvailable => none
  | .ready T_M_I_filter =>
    if cfg.use6dofLocalization then
      some (true, [.feedLocalization (makeOpenvinsLocalizationData cfg lr)])
    else
      if numValidMatches cfg.cameras lr.matchesPerCamera = 0 then
        if cfg.use6dofLocalizationForInactiveCameras then
          some (false, [])
        else
          some (false, [])
      else
        match s.T_G_M_filter_buffer.getLast? with
        | none => none
        | some T_G_M_filter =>
          let T_G_I_filter := T_G_M_filter.comp T_M_I_filter
          let acc := getLocalizationReprojectionErrors cfg.cameras lr
            T_G_I_filter
          let events :=
            if consistencyGateAccepts cfg.minNumberOfStructureConstraints
                cfg.maxMeanLocalizationReprojectionErrorPx acc then
              [Event.gateInvoked]
            else [Event.gateInvoked, Event.willResetLocalization]
          some (structureConstraintsAccepted cfg.cameras, events)

/-! ## The fusion state machine entry points -/

/-- `OpenvinsLocalizationHandler::processLocalizationResultInternal`:
dispatch on the localization state; `none` models a `CHECK`/`LOG(FATAL)`
abort. -/
def processLocalizationResultInternal (cfg : Config) (s : HandlerState)
    (lr : LocalizationResult) (seed : ℕ) :
    Option (HandlerState × List Event × List Disposition) :=
  match s.localizationState with
  | .kUninitialized =>
    let r := initializeBaseframe cfg s lr seed
    some (if r.success then
            { r.state with localizationState := .kLocalized }
          else r.state, r.events, r.dispositions)
  | .kNotLocalized =>
    let r := initializeBaseframe cfg s lr seed
    some (if r.success then
            { r.state with localizationState := .kLocalized }
          else r.state, r.events, r.dispositions)
  | .kLocalized =>
    match processAsUpdate cfg s lr with
    | none => none
    | some (accepted, events) =>
      some (s, events,
        [if accepted then Disposition.fused else Disposition.rejectedConsistency])

/-- `OpenvinsLocalizationHandler::processLocalizationResult`, the entry
point for arriving observations: the current source forwards every
localization result directly to openvins
(`feed_measurement_localization`) and leaves the handler state — in
particular the pending FIFO `localization_buffer_` — untouched; the
buffering-and-retry block is commented out. -/
def processLocalizationResult (cfg : Config) (s : HandlerState)
    (lr : LocalizationResult) :
    HandlerState × List Event × List Disposition :=
  (s, [.feedLocalization (makeOpenvinsLocalizationData cfg lr)], [.fused])

/-- The handler state established by the
`OpenvinsLocalizationHandler` constructor: the localization state is
`kLocalized` when `FLAGS_openvinsli_use_6dof_localization` is set and
`kUninitialized` otherwise, and all buffers start empty. -/
def initialHandlerState (cfg : Config) : HandlerState :=
  { localizationState :=
      if cfg.use6dofLocalization then .kLocalized else .kUninitialized
    T_M_I_buffer := ⟨cfg.bufferMaxPropagationNs, []⟩
    T_G_M_filter_buffer := []
    T_G_M_loc_buffer := []
    localization_buffer := [] }

/-! ## Helper lemmas -/

theorem fixedSizeQueueInsert_length (cap : ℕ) (q : List Transformation)
    (x : Transformation) :
    (fixedSizeQueueInsert cap q x).length = min cap (q.length + 1) := by
  unfold fixedSizeQueueInsert
  split
  · next h =>
    simp only [List.length_drop, List.length_append, List.length_cons,
      List.length_nil] at h ⊢
    omega
  · next h =>
    simp only [List.length_append, List.length_cons, List.length_nil] at h ⊢
    omega

theorem initializeBaseframe_localizationState (cfg : Config) (s : HandlerState)
    (lr : LocalizationResult) (seed : ℕ) :
    (initializeBaseframe cfg s lr seed).state.localizationState =
      s.localizationState := by
  unfold initializeBaseframe
  cases getPoseAt s.T_M_I_buffer lr.timestamp_ns with
  | ready T_M_I =>
    dsimp only
    split_ifs <;> rfl
  | notYetAvailable => rfl
  | neverAvailable => rfl

theorem initializeBaseframe_dispositions_length (cfg : Config)
    (s : HandlerState) (lr : LocalizationResult) (seed : ℕ) :
    (initializeBaseframe cfg s lr seed).dispositions.length = 1 := by
  unfold initializeBaseframe
  cases getPoseAt s.T_M_I_buffer lr.timestamp_ns with
  | ready T_M_I =>
    dsimp only
    split_ifs <;> rfl
  | notYetAvailable => rfl
  | neverAvailable => rfl

/-! ## Concrete sample data for witnesses and counterexamples -/

/-- A configuration with the source's flag defaults (6-DoF mode on,
five structure constraints, 100 px gate) and small, fully explicit
values for the header constants. -/
def sampleConfig : Config :=
  { use6dofLocalization := true
    use6dofLocalizationForInactiveCameras := false
    minNumBaseframeEstimatesBeforeInit := 1
    minNumberOfStructureConstraints := 5
    maxMeanLocalizationReprojectionErrorPx := 100
    maxNumRansacIterations := 1
    ransacOrientationErrorThresholdRad := 1
    ransacPositionErrorThresholdMeters := 1
    ransacInlierRatioThreshold := 1
    bufferMaxPropagationNs := 1000000
    cameras := []
    timeTranslate := fun t => (t : ℝ) }

/-- A pose buffer holding one identity pose at t = 100 ns. -/
def samplePoseBuffer : PoseLookupBuffer :=
  ⟨1000000, [⟨100, Transformation.identity⟩]⟩

/-- An uninitialized handler whose newest buffered pose is at
t = 100 ns. -/
def sampleState : HandlerState :=
  ⟨.kUninitialized, samplePoseBuffer, [], [], []⟩

/-- An observation at t = 200 ns, newer than every buffered pose. -/
def lateObservation : LocalizationResult :=
  ⟨200, Transformation.identity, []⟩

/-- An observation at t = 100 ns, exactly at the buffered pose. -/
def onTimeObservation : LocalizationResult :=
  ⟨100, Transformation.identity, []⟩

/-- An abstract camera that maps any point with positive depth to the
pixel `(x, y)` and reports anything else as behind the camera. -/
def orthoCamera : Camera :=
  ⟨fun p => if 0 < p.z then (.keypointVisible, ⟨p.x, p.y⟩)
            else (.pointBehindCamera, ⟨0, 0⟩)⟩

/-! ## Claim theorems -/

/-- Claim C4: for a fixed candidate alignment set, iteration budget and
random seed, the baseframe alignment estimation returns a bit-identical
transform and inlier count across repeated runs: two runs on pairwise
identical inputs produce identical outputs. -/
theorem ransac_deterministic (c₁ c₂ : List Transformation) (i₁ i₂ : ℕ)
    (o₁ o₂ p₁ p₂ : ℝ) (s₁ s₂ : ℕ) (hc : c₁ = c₂) (hi : i₁ = i₂)
    (ho : o₁ = o₂) (hp : p₁ = p₂) (hs : s₁ = s₂) :
    transformationRansac c₁ i₁ o₁ p₁ s₁ = transformationRansac c₂ i₂ o₂ p₂ s₂ := by
  subst hc hi ho hp hs
  rfl

/-- Witness for C4: two runs on the same concrete candidate set, budget,
thresholds and seed coincide. -/
theorem ransac_deterministic_witness :
    transformationRansac [Transformation.identity] 3 1 1 7 =
      transformationRansac [Transformation.identity] 3 1 1 7 :=
  ransac_deterministic _ _ _ _ _ _ _ _ _ _ rfl rfl rfl rfl rfl

/-- Claim C5: with the 6-DoF localization flag enabled the handler is
constructed in the `kLocalized` state; with it disabled, in the
`kUninitialized` state. -/
theorem initial_state_follows_mode (cfg : Config) :
    (cfg.use6dofLocalization = true →
      (initialHandlerState cfg).localizationState = .kLocalized) ∧
    (cfg.use6dofLocalization = false →
      (initialHandlerState cfg).localizationState = .kUninitialized) := by
  constructor <;> intro h <;> simp [initialHandlerState, h]

/-- Witness for C5: evaluated at a configuration with the flag set and
one with it cleared. -/
theorem initial_state_follows_mode_witness :
    (initialHandlerState sampleConfig).localizationState = .kLocalized ∧
    (initialHandlerState
      { sampleConfig with use6dofLocalization := false }).localizationState =
      .kUninitialized :=
  ⟨(initial_state_follows_mode sampleConfig).1 rfl,
   (initial_state_follows_mode _).2 rfl⟩

/-- Claim C9: the gravity disparity angle is total and always lies in
[0, 180] degrees; a cosine at or below −1 yields exactly 180° and a
cosine at or above 1 yields exactly 0°, so `acos` is never consulted
outside its domain. -/
theorem gravity_disparity_angle_bounds (lr : LocalizationResult)
    (T_G_I_vio : Transformation) :
    0 ≤ getLocalizationResultGravityDisparityAngleDeg lr T_G_I_vio ∧
    getLocalizationResultGravityDisparityAngleDeg lr T_G_I_vio ≤ 180 ∧
    ((T_G_I_vio.q.inv.rotate Vec3.unitZ).dot
        (lr.T_G_B.q.inv.rotate Vec3.unitZ) ≤ -1 →
      getLocalizationResultGravityDisparityAngleDeg lr T_G_I_vio = 180) ∧
    (1 ≤ (T_G_I_vio.q.inv.rotate Vec3.unitZ).dot
        (lr.T_G_B.q.inv.rotate Vec3.unitZ) →
      getLocalizationResultGravityDisparityAngleDeg lr T_G_I_vio = 0) := by
  unfold getLocalizationResultGravityDisparityAngleDeg kRadToDeg
  set c := (T_G_I_vio.q.inv.rotate Vec3.unitZ).dot
    (lr.T_G_B.q.inv.rotate Vec3.unitZ) with hc
  have hpi : (0 : ℝ) < Real.pi := Real.pi_pos
  have hscale : Real.pi * (180 / Real.pi) = 180 := by
    field_simp
  refine ⟨?_, ?_, ?_, ?_⟩
  · by_cases h1 : c ≤ -1
    · simp [h1]
    · by_cases h2 : c ≥ 1
      · simp [h1, h2]
      · simp only [h1, h2, if_false]
        exact mul_nonneg (Real.arccos_nonneg c) (by positivity)
  · by_cases h1 : c ≤ -1
    · simp [h1]
    · by_cases h2 : c ≥ 1
      · simp [h1, h2]
      · simp only [h1, h2, if_false]
        calc Real.arccos c * (180 / Real.pi)
            ≤ Real.pi * (180 / Real.pi) :=
              mul_le_mul_of_nonneg_right (Real.arccos_le_pi c) (by positivity)
          _ = 180 := hscale
  · intro h1
    simp [h1]
  · intro h2
    have h1 : ¬ c ≤ -1 := by linarith
    simp [h1, h2]

/-- Witness for C9: a vertical odometry pose against a localization
rotated 180° about the x-axis gives gravity cosine −1 and a disparity
of exactly 180°. -/
theorem gravity_disparity_angle_bounds_witness :
    getLocalizationResultGravityDisparityAngleDeg
      ⟨0, ⟨⟨0, 1, 0, 0⟩, Vec3.zero⟩, []⟩ Transformation.identity = 180 := by
  apply (gravity_disparity_angle_bounds
    ⟨0, ⟨⟨0, 1, 0, 0⟩, Vec3.zero⟩, []⟩ Transformation.identity).2.2.1
  simp only [Transformation.identity]
  norm_num [Quat.inv, Quat.rotate, Quat.id, Vec3.unitZ, Vec3.dot, Vec3.cross,
    Vec3.smul, Vec3.add]

/-- Claim C10: `extractLocalizationFromOpenvinsState` returns exactly
`output.status.localized`; the out-parameter is untouched when the flag
is false and is overwritten from `T_MtoG` — with the rotation
quaternion flipped to a non-negative scalar part — when it is true. -/
theorem extract_localization_semantics (output : OvOutput)
    (T_G_M : Transformation) :
    (extractLocalizationFromOpenvinsState output T_G_M).1 =
      output.status.localized ∧
    (extractLocalizationFromOpenvinsState output T_G_M).2 =
      (if output.status.localized then
        ⟨ensurePositiveQuaternion output.status.T_MtoG.q,
          output.status.T_MtoG.t⟩
      else T_G_M) ∧
    ∀ q : Quat, 0 ≤ (ensurePositiveQuaternion q).w := by
  refine ⟨rfl, rfl, fun q => ?_⟩
  by_cases h : q.w < 0
  · simp only [ensurePositiveQuaternion, if_pos h]
    linarith
  · simp only [ensurePositiveQuaternion, if_neg h]
    exact le_of_not_lt h

/-- Claim C1 (amended): an observation whose timestamp is newer than
the newest buffered pose (`NotYetAvailable`) is *not* held or retried:
`initializeBaseframe` treats the status exactly like `NeverAvailable`,
surfacing failure and leaving the handler state — including every
buffer — unchanged, while the entry point `processLocalizationResult`
forwards each observation directly without ever filling the pending
FIFO. -/
theorem notYetAvailable_dropped (cfg : Config) (s : HandlerState)
    (lr : LocalizationResult) (seed : ℕ)
    (h : getPoseAt s.T_M_I_buffer lr.timestamp_ns = .notYetAvailable) :
    initializeBaseframe cfg s lr seed =
      ⟨false, s, [.warnCouldNotGetTMI], [.rejectedTiming]⟩ ∧
    (processLocalizationResult cfg s lr).1 = s := by
  constructor
  · unfold initializeBaseframe
    rw [h]
  · rfl

/-- Witness for C1 (amended): the t = 200 ns observation against a
buffer whose newest pose is at t = 100 ns. -/
theorem notYetAvailable_dropped_witness :
    getPoseAt sampleState.T_M_I_buffer lateObservation.timestamp_ns =
      .notYetAvailable ∧
    initializeBaseframe sampleConfig sampleState lateObservation 0 =
      ⟨false, sampleState, [.warnCouldNotGetTMI], [.rejectedTiming]⟩ := by
  have h : getPoseAt sampleState.T_M_I_buffer lateObservation.timestamp_ns =
      .notYetAvailable := by
    simp only [sampleState, samplePoseBuffer, lateObservation, getPoseAt,
      List.getLast?_singleton]
    norm_num
  exact ⟨h, (notYetAvailable_dropped sampleConfig sampleState lateObservation 0 h).1⟩

/-- Counterexample for C1 as stated: at a concrete observation with
query status `NotYetAvailable` the fusion core surfaces a failure
(`initializeBaseframe` returns `false` with a timing-rejection
disposition), keeps no copy of the observation (the state, including
the pending FIFO, is unchanged), and the entry point leaves the FIFO
empty — the observation is not held in a FIFO nor retried. -/
theorem notYetAvailable_not_buffered_cex :
    getPoseAt sampleState.T_M_I_buffer lateObservation.timestamp_ns =
      .notYetAvailable ∧
    (initializeBaseframe sampleConfig sampleState lateObservation 0).success =
      false ∧
    (initializeBaseframe sampleConfig sampleState lateObservation 0).state =
      sampleState ∧
    (initializeBaseframe sampleConfig sampleState lateObservation
      0).dispositions = [.rejectedTiming] ∧
    (processLocalizationResult sampleConfig sampleState
      lateObservation).1.localization_buffer = [] := by
  have h : getPoseAt sampleState.T_M_I_buffer lateObservation.timestamp_ns =
      .notYetAvailable := by
    simp only [sampleState, samplePoseBuffer, lateObservation, getPoseAt,
      List.getLast?_singleton]
    norm_num
  have hinit : initializeBaseframe sampleConfig sampleState lateObservation 0 =
      ⟨false, sampleState, [.warnCouldNotGetTMI], [.rejectedTiming]⟩ := by
    unfold initializeBaseframe
    rw [h]
  exact ⟨h, by rw [hinit], by rw [hinit], by rw [hinit], rfl⟩

/-- Claim C6: in 6-DoF mode every observation is handed straight to the
estimator: the entry point emits exactly one
`feed_measurement_localization` call (no RANSAC, no gate) and leaves
the state untouched, and `processAsUpdate` likewise feeds the
measurement and always reports it accepted. -/
theorem sixdof_direct_feed (cfg : Config) (s : HandlerState)
    (lr : LocalizationResult) (T_M_I : Transformation)
    (hmode : cfg.use6dofLocalization = true)
    (hready : getPoseAt s.T_M_I_buffer lr.timestamp_ns = .ready T_M_I) :
    (processLocalizationResult cfg s lr).2.1 =
      [.feedLocalization (makeOpenvinsLocalizationData cfg lr)] ∧
    (processLocalizationResult cfg s lr).1 = s ∧
    processAsUpdate cfg s lr =
      some (true, [.feedLocalization (makeOpenvinsLocalizationData cfg lr)]) := by
  refine ⟨rfl, rfl, ?_⟩
  unfold processAsUpdate
  rw [hready, hmode]
  simp

/-- Witness for C6: a 6-DoF-mode configuration and an observation whose
pose lookup is ready. -/
theorem sixdof_direct_feed_witness :
    sampleConfig.use6dofLocalization = true ∧
    getPoseAt sampleState.T_M_I_buffer onTimeObservation.timestamp_ns =
      .ready Transformation.identity ∧
    processAsUpdate sampleConfig sampleState onTimeObservation =
      some (true,
        [.feedLocalization
          (makeOpenvinsLocalizationData sampleConfig onTimeObservation)]) := by
  have hready : getPoseAt sampleState.T_M_I_buffer
      onTimeObservation.timestamp_ns = .ready Transformation.identity := by
    simp only [sampleState, samplePoseBuffer, onTimeObservation, getPoseAt,
      List.getLast?_singleton, List.head?]
    norm_num [lookupInSamples]
  exact ⟨rfl, hready,
    (sixdof_direct_feed sampleConfig sampleState onTimeObservation
      Transformation.identity rfl hready).2.2⟩

/-- Claim C7: every observation delivered to the fusion core is
consumed exactly once with exactly one recorded disposition: the entry
point records precisely one `fused` disposition per observation, and
every non-aborting run of the internal dispatcher records exactly one
disposition for the observation it consumes. -/
theorem single_disposition (cfg : Config) (s : HandlerState)
    (lr : LocalizationResult) (seed : ℕ)
    (r : HandlerState × List Event × List Disposition) :
    (processLocalizationResult cfg s lr).2.2 = [Disposition.fused] ∧
    (processLocalizationResultInternal cfg s lr seed = some r →
      r.2.2.length = 1) := by
  refine ⟨rfl, fun h => ?_⟩
  unfold processLocalizationResultInternal at h
  cases hs : s.localizationState <;> rw [hs] at h
  · rw [Option.some_inj] at h
    rw [← h]
    exact initializeBaseframe_dispositions_length cfg s lr seed
  · rw [Option.some_inj] at h
    rw [← h]
    exact initializeBaseframe_dispositions_length cfg s lr seed
  · cases hu : processAsUpdate cfg s lr <;> rw [hu] at h
    · exact absurd h (by simp)
    · next v =>
      rw [Option.some_inj] at h
      rw [← h]
      rfl

/-- Witness for C7: a concrete internal run (timing rejection of the
late observation) records exactly one disposition. -/
theorem single_disposition_witness :
    processLocalizationResultInternal sampleConfig sampleState lateObservation
      0 = some (sampleState, [.warnCouldNotGetTMI], [.rejectedTiming]) ∧
    ((sampleState, ([Event.warnCouldNotGetTMI], [Disposition.rejectedTiming])) :
      HandlerState × List Event × List Disposition).2.2.length = 1 := by
  have h : getPoseAt sampleState.T_M_I_buffer lateObservation.timestamp_ns =
      .notYetAvailable := by
    simp only [sampleState, samplePoseBuffer, lateObservation, getPoseAt,
      List.getLast?_singleton]
    norm_num
  have hint : processLocalizationResultInternal sampleConfig sampleState
      lateObservation 0 =
      some (sampleState, [.warnCouldNotGetTMI], [.rejectedTiming]) := by
    unfold processLocalizationResultInternal initializeBaseframe
    rw [h]
    rfl
  exact ⟨hint,
    (single_disposition sampleConfig sampleState lateObservation 0 _).2 hint⟩

/-- Claim C3: when the pose lookup is ready and the candidate buffer
reaches capacity, baseframe initialization succeeds iff the RANSAC's
best inlier count reaches `ceil(candidate_buffer_size *
inlier_ratio_threshold)`; the state machine then moves to `kLocalized`
exactly on success (staying put otherwise), and on failure the observed
inlier count and buffer size are reported for diagnostics. -/
theorem baseframe_init_success_iff (cfg : Config) (s : HandlerState)
    (lr : LocalizationResult) (seed : ℕ) (T_M_I : Transformation)
    (hlookup : getPoseAt s.T_M_I_buffer lr.timestamp_ns = .ready T_M_I)
    (hfull : cfg.minNumBaseframeEstimatesBeforeInit ≤
      (fixedSizeQueueInsert cfg.minNumBaseframeEstimatesBeforeInit
        s.T_G_M_loc_buffer (lr.T_G_B.comp T_M_I.inverse)).length)
    (hstate : s.localizationState = .kUninitialized ∨
      s.localizationState = .kNotLocalized) :
    ((initializeBaseframe cfg s lr seed).success = true ↔
      (⌈((fixedSizeQueueInsert cfg.minNumBaseframeEstimatesBeforeInit
            s.T_G_M_loc_buffer (lr.T_G_B.comp T_M_I.inverse)).length : ℝ) *
          cfg.ransacInlierRatioThreshold⌉ : ℤ) ≤
        ((transformationRansac
            (fixedSizeQueueInsert cfg.minNumBaseframeEstimatesBeforeInit
              s.T_G_M_loc_buffer (lr.T_G_B.comp T_M_I.inverse))
            cfg.maxNumRansacIterations cfg.ransacOrientationErrorThresholdRad
            cfg.ransacPositionErrorThresholdMeters seed).2 : ℤ)) ∧
    (processLocalizationResultInternal cfg s lr seed).map
        (fun r => r.1.localizationState) =
      some (if (initializeBaseframe cfg s lr seed).success then
              LocalizationState.kLocalized
            else s.localizationState) ∧
    ((initializeBaseframe cfg s lr seed).success = false →
      (initializeBaseframe cfg s lr seed).events =
        [.ransacInvoked,
         .ransacDiagnostics
           (transformationRansac
             (fixedSizeQueueInsert cfg.minNumBaseframeEstimatesBeforeInit
               s.T_G_M_loc_buffer (lr.T_G_B.comp T_M_I.inverse))
             cfg.maxNumRansacIterations cfg.ransacOrientationErrorThresholdRad
             cfg.ransacPositionErrorThresholdMeters seed).2
           (fixedSizeQueueInsert cfg.minNumBaseframeEstimatesBeforeInit
             s.T_G_M_loc_buffer (lr.T_G_B.comp T_M_I.inverse)).length]) := by
  have hlen : (fixedSizeQueueInsert cfg.minNumBaseframeEstimatesBeforeInit
      s.T_G_M_loc_buffer (lr.T_G_B.comp T_M_I.inverse)).length =
      cfg.minNumBaseframeEstimatesBeforeInit := by
    rw [fixedSizeQueueInsert_length] at hfull ⊢
    omega
  have hnotlt : ¬ (fixedSizeQueueInsert cfg.minNumBaseframeEstimatesBeforeInit
      s.T_G_M_loc_buffer (lr.T_G_B.comp T_M_I.inverse)).length <
      cfg.minNumBaseframeEstimatesBeforeInit := by
    omega
  refine ⟨?_, ?_, ?_⟩
  · rw [hlen]
    unfold initializeBaseframe
    rw [hlookup]
    dsimp only
    rw [if_neg hnotlt]
    by_cases hlt : ((transformationRansac
        (fixedSizeQueueInsert cfg.minNumBaseframeEstimatesBeforeInit
          s.T_G_M_loc_buffer (lr.T_G_B.comp T_M_I.inverse))
        cfg.maxNumRansacIterations cfg.ransacOrientationErrorThresholdRad
        cfg.ransacPositionErrorThresholdMeters seed).2 : ℤ) <
        ⌈(cfg.minNumBaseframeEstimatesBeforeInit : ℝ) *
          cfg.ransacInlierRatioThreshold⌉
    · rw [if_pos hlt]
      simp only [Bool.false_eq_true, false_iff, not_le]
      exact hlt
    · rw [if_neg hlt]
      simp only [true_iff]
      exact le_of_not_lt hlt
  · have hdisp : (processLocalizationResultInternal cfg s lr seed).map
        (fun r => r.1.localizationState) =
        some (if (initializeBaseframe cfg s lr seed).success then
                LocalizationState.kLocalized
              else (initializeBaseframe cfg s lr seed).state.localizationState) := by
      unfold processLocalizationResultInternal
      rcases hstate with hs | hs <;> rw [hs] <;>
        cases hsucc : (initializeBaseframe cfg s lr seed).success <;>
        simp [hsucc]
    rw [hdisp, initializeBaseframe_localizationState]
  · intro hfail
    by_cases hlt : ((transformationRansac
        (fixedSizeQueueInsert cfg.minNumBaseframeEstimatesBeforeInit
          s.T_G_M_loc_buffer (lr.T_G_B.comp T_M_I.inverse))
        cfg.maxNumRansacIterations cfg.ransacOrientationErrorThresholdRad
        cfg.ransacPositionErrorThresholdMeters seed).2 : ℤ) <
        ⌈(cfg.minNumBaseframeEstimatesBeforeInit : ℝ) *
          cfg.ransacInlierRatioThreshold⌉
    · unfold initializeBaseframe
      rw [hlookup]
      dsimp only
      rw [if_neg hnotlt, if_pos hlt]
    · exfalso
      have hsucc : (initializeBaseframe cfg s lr seed).success = true := by
        unfold initializeBaseframe
        rw [hlookup]
        dsimp only
        rw [if_neg hnotlt, if_neg hlt]
      rw [hfail] at hsucc
      exact Bool.false_ne_true hsucc

/-- Witness for C3: a single-candidate configuration (capacity 1, one
iteration, ratio 1) whose lookup is ready and whose buffer fills on
this observation. -/
theorem baseframe_init_success_iff_witness :
    getPoseAt sampleState.T_M_I_buffer onTimeObservation.timestamp_ns =
      .ready Transformation.identity ∧
    sampleConfig.minNumBaseframeEstimatesBeforeInit ≤
      (fixedSizeQueueInsert sampleConfig.minNumBaseframeEstimatesBeforeInit
        sampleState.T_G_M_loc_buffer
        (onTimeObservation.T_G_B.comp Transformation.identity.inverse)).length ∧
    ((initializeBaseframe sampleConfig sampleState onTimeObservation 5).success =
        true ↔
      (⌈((fixedSizeQueueInsert sampleConfig.minNumBaseframeEstimatesBeforeInit
            sampleState.T_G_M_loc_buffer
            (onTimeObservation.T_G_B.comp Transformation.identity.inverse)).length :
          ℝ) * sampleConfig.ransacInlierRatioThreshold⌉ : ℤ) ≤
        ((transformationRansac
            (fixedSizeQueueInsert sampleConfig.minNumBaseframeEstimatesBeforeInit
              sampleState.T_G_M_loc_buffer
              (onTimeObservation.T_G_B.comp Transformation.identity.inverse))
            sampleConfig.maxNumRansacIterations
            sampleConfig.ransacOrientationErrorThresholdRad
            sampleConfig.ransacPositionErrorThresholdMeters 5).2 : ℤ)) := by
  have hready : getPoseAt sampleState.T_M_I_buffer
      onTimeObservation.timestamp_ns = .ready Transformation.identity := by
    simp only [sampleState, samplePoseBuffer, onTimeObservation, getPoseAt,
      List.getLast?_singleton, List.head?]
    norm_num [lookupInSamples]
  have hfull : sampleConfig.minNumBaseframeEstimatesBeforeInit ≤
      (fixedSizeQueueInsert sampleConfig.minNumBaseframeEstimatesBeforeInit
        sampleState.T_G_M_loc_buffer
        (onTimeObservation.T_G_B.comp Transformation.identity.inverse)).length := by
    simp [sampleConfig, sampleState, fixedSizeQueueInsert]
  exact ⟨hready, hfull,
    (baseframe_init_success_iff sampleConfig sampleState onTimeObservation 5
      Transformation.identity hready hfull (Or.inl rfl)).1⟩

/-- Claim C8: a correspondence whose projection is geometrically
invalid (behind the camera or outside the projection domain) under
either hypothesis is skipped, not failed: no residual is recorded for
it, it still increments the processed-matches denominator, and the loop
continues over the remaining correspondences. -/
theorem invalid_projection_skipped (camera : Camera)
    (T_G_C_filter T_G_C_lc : Transformation) (kp : Vec2) (p_G : Vec3)
    (acc : ReprojAccum) (rest : List (Vec2 × Vec3))
    (h : ((camera.project3 (T_G_C_filter.inverse.act p_G)).1 =
            ProjectionStatus.pointBehindCamera ∨
          (camera.project3 (T_G_C_filter.inverse.act p_G)).1 =
            ProjectionStatus.projectionInvalid) ∨
         ((camera.project3 (T_G_C_lc.inverse.act p_G)).1 =
            ProjectionStatus.pointBehindCamera ∨
          (camera.project3 (T_G_C_lc.inverse.act p_G)).1 =
            ProjectionStatus.projectionInvalid)) :
    List.foldl (processMatch camera T_G_C_filter T_G_C_lc) acc
        ((kp, p_G) :: rest) =
      List.foldl (processMatch camera T_G_C_filter T_G_C_lc)
        { acc with processed := acc.processed + 1 } rest := by
  have hstep : processMatch camera T_G_C_filter T_G_C_lc acc (kp, p_G) =
      { acc with processed := acc.processed + 1 } := by
    rcases h with hf | hl
    · simp only [processMatch, getReprojectionErrorForGlobalLandmark, if_pos hf]
    · by_cases hf : (camera.project3 (T_G_C_filter.inverse.act p_G)).1 =
          ProjectionStatus.pointBehindCamera ∨
          (camera.project3 (T_G_C_filter.inverse.act p_G)).1 =
          ProjectionStatus.projectionInvalid
      · simp only [processMatch, getReprojectionErrorForGlobalLandmark,
          if_pos hf]
      · simp only [processMatch, getReprojectionErrorForGlobalLandmark,
          if_neg hf, if_pos hl]
  rw [List.foldl_cons, hstep]

/-- Witness for C8: the landmark `(0, 0, −1)` is behind `orthoCamera`
under the (identity) filter hypothesis, so the match is skipped but
counted. -/
theorem invalid_projection_skipped_witness :
    ((orthoCamera.project3 (Transformation.identity.inverse.act ⟨0, 0, -1⟩)).1 =
        ProjectionStatus.pointBehindCamera ∨
      (orthoCamera.project3 (Transformation.identity.inverse.act ⟨0, 0, -1⟩)).1 =
        ProjectionStatus.projectionInvalid) ∧
    List.foldl (processMatch orthoCamera Transformation.identity
        Transformation.identity) ⟨[], [], 0⟩ [(⟨0, 0⟩, ⟨0, 0, -1⟩)] =
      List.foldl (processMatch orthoCamera Transformation.identity
        Transformation.identity) ⟨[], [], 1⟩ [] := by
  have h : (orthoCamera.project3
      (Transformation.identity.inverse.act ⟨0, 0, -1⟩)).1 =
      ProjectionStatus.pointBehindCamera := by
    simp only [Transformation.identity_inverse, Transformation.identity_act,
      orthoCamera]
    norm_num
  exact ⟨Or.inl h,
    invalid_projection_skipped orthoCamera Transformation.identity
      Transformation.identity ⟨0, 0⟩ ⟨0, 0, -1⟩ ⟨[], [], 0⟩ []
      (Or.inl (Or.inl h))⟩

/-- Claim C2 (amended): the consistency gate accepts a localization
result iff the reprojection success rate strictly exceeds 0.5, the
number of valid correspondences strictly exceeds the configured
minimum, and the absolute mean-residual difference is *at or below*
(not strictly below) the configured pixel-error threshold. -/
theorem consistency_gate_decision (cameras : List CameraEntry) (minC : ℕ)
    (maxE : ℝ) (lr : LocalizationResult) (T_G_I_filter : Transformation) :
    consistencyGateAccepts minC maxE
        (getLocalizationReprojectionErrors cameras lr T_G_I_filter) ↔
      (reprojectionSuccessRate
          (getLocalizationReprojectionErrors cameras lr T_G_I_filter) > 1 / 2 ∧
       (getLocalizationReprojectionErrors cameras lr
          T_G_I_filter).lcErrs.length > minC ∧
       |mean (getLocalizationReprojectionErrors cameras lr
            T_G_I_filter).filterErrs -
          mean (getLocalizationReprojectionErrors cameras lr
            T_G_I_filter).lcErrs| ≤ maxE) := by
  set acc := getLocalizationReprojectionErrors cameras lr T_G_I_filter
  unfold consistencyGateAccepts meanReprojectionErrorDiff
  rw [not_or, not_not, not_lt]
  by_cases h : reprojectionSuccess minC acc
  · rw [if_pos h]
    unfold reprojectionSuccess at h ⊢
    tauto
  · rw [if_neg h]
    unfold reprojectionSuccess at h ⊢
    tauto

/-- The camera calibration entry of the C2 counterexample: one active
camera with identity extrinsics. -/
def cexCameraEntry : CameraEntry := ⟨orthoCamera, Transformation.identity, some 0⟩

/-- The localization result of the C2 counterexample: six copies of a
correspondence whose filter-hypothesis residual is 0 px and whose
localization-hypothesis residual is exactly 100 px. -/
def cexLocalization : LocalizationResult :=
  ⟨0, ⟨Quat.id, ⟨-100, 0, 0⟩⟩, [List.replicate 6 (⟨0, 0⟩, ⟨0, 0, 1⟩)]⟩

/-- Counterexample for C2 as stated: at this observation the mean
residual difference equals the 100 px default threshold exactly; the
source gate (reject iff `diff > threshold`) accepts it, while the
claim's strictly-below criterion rejects it, refuting the claimed
equivalence. -/
theorem consistency_gate_boundary_cex :
    consistencyGateAccepts defaultMinNumberOfStructureConstraints
      defaultMaxMeanLocalizationReprojectionErrorPx
      (getLocalizationReprojectionErrors [cexCameraEntry] cexLocalization
        Transformation.identity) ∧
    ¬ consistencyGateAcceptsSpec defaultMinNumberOfStructureConstraints
      defaultMaxMeanLocalizationReprojectionErrorPx
      (getLocalizationReprojectionErrors [cexCameraEntry] cexLocalization
        Transformation.identity) := by
  have h10000 : Real.sqrt 10000 = 100 := by
    rw [show (10000 : ℝ) = 100 ^ 2 by norm_num]
    exact Real.sqrt_sq (by norm_num)
  have hf : getReprojectionErrorForGlobalLandmark ⟨0, 0, 1⟩
      Transformation.identity orthoCamera ⟨0, 0⟩ = some 0 := by
    unfold getReprojectionErrorForGlobalLandmark
    norm_num [Transformation.identity_inverse, Transformation.identity_act,
      orthoCamera, Vec2.sub, Vec2.norm, Vec2.normSq, Real.sqrt_zero]
    rintro (h | h) <;> simp at h
  have hl : getReprojectionErrorForGlobalLandmark ⟨0, 0, 1⟩
      (⟨Quat.id, ⟨-100, 0, 0⟩⟩ : Transformation) orthoCamera ⟨0, 0⟩ =
      some 100 := by
    unfold getReprojectionErrorForGlobalLandmark
    norm_num [Transformation.inverse, Transformation.act, Quat.id_inv,
      Quat.id_rotate, Vec3.neg, Vec3.add, orthoCamera, Vec2.sub, Vec2.norm,
      Vec2.normSq, h10000]
    rintro (h | h) <;> simp at h
  have hstep : ∀ acc : ReprojAccum,
      processMatch orthoCamera Transformation.identity
        (⟨Quat.id, ⟨-100, 0, 0⟩⟩ : Transformation) acc (⟨0, 0⟩, ⟨0, 0, 1⟩) =
      ⟨acc.lcErrs ++ [0], acc.filterErrs ++ [100], acc.processed + 1⟩ := by
    intro acc
    unfold processMatch
    rw [hf, hl]
  have hTl : ((⟨Quat.id, ⟨-100, 0, 0⟩⟩ : Transformation).inverse.inverse) =
      (⟨Quat.id, ⟨-100, 0, 0⟩⟩ : Transformation) := by
    simp [Transformation.inverse, Quat.id_inv, Quat.id_rotate, Vec3.neg]
  have haccum : getLocalizationReprojectionErrors [cexCameraEntry]
      cexLocalization Transformation.identity =
      ⟨[0, 0, 0, 0, 0, 0], [100, 100, 100, 100, 100, 100], 6⟩ := by
    unfold getLocalizationReprojectionErrors cexLocalization cexCameraEntry
    simp only [List.zip_cons_cons, List.zip_nil_right, List.foldl_cons,
      List.foldl_nil]
    unfold processCamera
    simp only [List.length_replicate]
    norm_num
    rw [hTl]
    rw [show List.replicate 6 ((⟨0, 0⟩, ⟨0, 0, 1⟩) : Vec2 × Vec3) =
      [(⟨0, 0⟩, ⟨0, 0, 1⟩), (⟨0, 0⟩, ⟨0, 0, 1⟩), (⟨0, 0⟩, ⟨0, 0, 1⟩),
       (⟨0, 0⟩, ⟨0, 0, 1⟩), (⟨0, 0⟩, ⟨0, 0, 1⟩), (⟨0, 0⟩, ⟨0, 0, 1⟩)] from rfl]
    simp only [List.foldl_cons, List.foldl_nil, hstep]
    norm_num
  have hsuccess : reprojectionSuccess defaultMinNumberOfStructureConstraints
      (⟨[0, 0, 0, 0, 0, 0], [100, 100, 100, 100, 100, 100], 6⟩ :
        ReprojAccum) := by
    constructor
    · unfold reprojectionSuccessRate
      norm_num
    · norm_num [defaultMinNumberOfStructureConstraints]
  have hmean : |mean [(100 : ℝ), 100, 100, 100, 100, 100] -
      mean [(0 : ℝ), 0, 0, 0, 0, 0]| = 100 := by
    unfold mean
    norm_num
  rw [haccum]
  constructor
  · unfold consistencyGateAccepts meanReprojectionErrorDiff
    rw [not_or, not_not, not_lt, if_pos hsuccess]
    refine ⟨hsuccess, ?_⟩
    rw [show ((⟨[0, 0, 0, 0, 0, 0], [100, 100, 100, 100, 100, 100], 6⟩ :
      ReprojAccum).filterErrs) = [(100 : ℝ), 100, 100, 100, 100, 100] from rfl,
      show ((⟨[0, 0, 0, 0, 0, 0], [100, 100, 100, 100, 100, 100], 6⟩ :
      ReprojAccum).lcErrs) = [(0 : ℝ), 0, 0, 0, 0, 0] from rfl, hmean]
    unfold defaultMaxMeanLocalizationReprojectionErrorPx
    norm_num
  · unfold consistencyGateAcceptsSpec
    rintro ⟨-, -, h3⟩
    rw [show ((⟨[0, 0, 0, 0, 0, 0], [100, 100, 100, 100, 100, 100], 6⟩ :
      ReprojAccum).filterErrs) = [(100 : ℝ), 100, 100, 100, 100, 100] from rfl,
      show ((⟨[0, 0, 0, 0, 0, 0], [100, 100, 100, 100, 100, 100], 6⟩ :
      ReprojAccum).lcErrs) = [(0 : ℝ), 0, 0, 0, 0, 0] from rfl, hmean] at h3
    unfold defaultMaxMeanLocalizationReprojectionErrorPx at h3
    exact absurd h3 (by norm_num)

end Openvinsli
